import Mathlib

/-!
Shallow embedding of the Overlay repository (event bridge and key injector)
and verification of the frozen specification claims.

Sources embedded:
  - skyrim-console-executor.py : ConsoleCommandExecutor (polling bridge that
    appends commands to a queue file); skyrim-mod-bridge.py is a near-identical
    variant whose process_result matches line for line, so one embedding covers
    both.
  - src/controllers/pythonkeys/send_keys.py : one-shot key injector.

Modelling conventions: Python strings are Lean String on the bridge side and
List Nat of Unicode code points on the injector side (payloads may pass through
lone surrogates, which Lean Char cannot hold); machine effects (prints, log
lines, file appends, clipboard and key events) are recorded in explicit effect
traces; fallible I/O is driven by explicit Boolean environment flags.
-/

namespace Overlay

/-- Code points removed by the Python str.strip default (characters for which
str.isspace holds): ASCII whitespace, the information separators 0x1c to 0x1f,
NEL, NBSP and the Unicode space separators. -/
def isPySpace (c : Nat) : Bool :=
  c == 9 || c == 10 || c == 11 || c == 12 || c == 13 || c == 28 || c == 29 ||
  c == 30 || c == 31 || c == 32 || c == 133 || c == 160 || c == 5760 ||
  (8192 ≤ c && c ≤ 8202) || c == 8232 || c == 8233 || c == 8239 || c == 8287 ||
  c == 12288

/-- Python str.strip (no argument) on a list of code points: drop leading and
trailing whitespace. -/
def pyStripNat (l : List Nat) : List Nat :=
  ((l.dropWhile isPySpace).reverse.dropWhile isPySpace).reverse

/-- Python str.strip (no argument) on a Lean String. -/
def pyStrip (s : String) : String :=
  String.mk (((s.data.dropWhile (fun c => isPySpace c.toNat)).reverse.dropWhile
    (fun c => isPySpace c.toNat)).reverse)

/-! ## Event bridge data model (skyrim-console-executor.py) -/

/-- Value stored in ACTION_MAPPINGS for one wheel option (lines 28 to 31):
the console command and the human description. -/
structure Action where
  command : String
  description : String
deriving DecidableEq, Repr

/-- Parsed JSON document, as produced by json.load. Numeric literals are
modelled as integers (no claim depends on float arithmetic); parsed objects
have unique keys, modelled as association lists. -/
inductive Json where
  | null : Json
  | bool : Bool → Json
  | num : Int → Json
  | str : String → Json
  | arr : List Json → Json
  | obj : List (String × Json) → Json

/-- Python dict lookup (dict.get with no default returns None, modelled as
Option) on a parsed JSON object. -/
def lookupField (fields : List (String × Json)) (k : String) : Option Json :=
  fields.lookup k

/-- Python dict assignment ACTION_MAPPINGS[name] = value: replace in place if
the key exists, otherwise append. -/
def dictInsert (t : List (String × Action)) (k : String) (v : Action) :
    List (String × Action) :=
  if t.any (fun p => p.1 == k) then
    t.map (fun p => if p.1 == k then (k, v) else p)
  else t ++ [(k, v)]

/-- One iteration of the loop at lines 27 to 31: option[name], option[command]
and option[description] must exist; a missing key raises, which the enclosing
try turns into load failure (none). Configurations whose option fields are
non-string JSON values are outside the modelled input space. -/
def loadOption (item : Json) : Option (String × Action) :=
  match item with
  | .obj f =>
    match lookupField f "name", lookupField f "command",
        lookupField f "description" with
    | some (.str n), some (.str c), some (.str d) => some (n, ⟨c, d⟩)
    | _, _, _ => none
  | _ => none

/-- load_action_mappings (lines 21 to 35) on an already parsed document:
data.get with default [] tolerates a missing options key; any exception while
building the table yields False, modelled as none. Iterating a non-list options
value raises on the first element access (an empty object iterates zero times
and succeeds). Success returns the table (the Python version mutates a global
that starts empty). -/
def load_action_mappings (doc : Json) : Option (List (String × Action)) :=
  match doc with
  | .obj fields =>
    match (lookupField fields "options").getD (.arr []) with
    | .arr items =>
      items.foldl (fun acc item =>
        match acc, loadOption item with
        | some t, some na => some (dictInsert t na.1 na.2)
        | _, _ => none) (some [])
    | .obj [] => some []
    | _ => none
  | _ => none

/-- One observation of the overlay data file (lines 82 to 84): data.get of
result (default empty string, absent modelled as none), timestamp (an opaque
producer scalar, modelled by the string the Python f-string renders it to,
absent key meaning None) and mods. -/
structure WheelData where
  result : Option String
  timestamp : Option String
  mods : List String
deriving DecidableEq, Repr

/-- Rendering of the timestamp scalar inside the f-string at line 87: the
Python value None renders as the four letters None. -/
def tsRender : Option String → String
  | none => "None"
  | some s => s

/-- Mutable fields of ConsoleCommandExecutor (lines 38 to 41). The Python set
of processed keys is modelled as an insertion-ordered duplicate-free list;
set iteration order at eviction time is modelled as insertion order (the spec
leaves evicted membership implementation-defined). -/
structure ExecutorState where
  last_result : Option String
  last_timestamp : Option String
  processed_results : List String
deriving DecidableEq, Repr

/-- State freshly constructed by init (lines 38 to 41). -/
def initState : ExecutorState := ⟨none, none, []⟩

/-- Observable effects of one process_result call: console prints (tagged by
which print statement fired, with its data) and queue-file appends (the exact
text written, command plus newline). -/
inductive BridgeEffect where
  | printedWheelResult : String → BridgeEffect
  | printedDescription : String → BridgeEffect
  | printedMappedMods : List String → BridgeEffect
  | printedQueuedCommand : String → BridgeEffect
  | printedWriteError : BridgeEffect
  | printedNoActionMapped : String → BridgeEffect
  | printedAvailableActions : List String → BridgeEffect
  | appended : String → BridgeEffect
deriving DecidableEq, Repr

/-- write_command_queue (lines 58 to 71): on success each command is appended
followed by a newline and True is returned; any exception (mkdir or open or
write, driven here by the environment flag) prints the error and returns
False. -/
def write_command_queue (writeFails : Bool) (commands : List String) :
    List BridgeEffect × Bool :=
  if writeFails then ([.printedWriteError], false)
  else (commands.map (fun c => .appended (c ++ "\n")), true)

/-- execute_console_command (lines 73 to 78): print the queued command, then
delegate to write_command_queue with a singleton list. -/
def execute_console_command (writeFails : Bool) (command : String) :
    List BridgeEffect × Bool :=
  let wq := write_command_queue writeFails [command]
  (.printedQueuedCommand command :: wq.1, wq.2)

/-- Last n elements of a list, the Python slice list[-100:] generalised. -/
def lastN {α : Type} (n : Nat) (l : List α) : List α :=
  l.drop (l.length - n)

/-- The stripped result string of line 82. -/
def strippedResult (d : WheelData) : String :=
  pyStrip (d.result.getD "")

/-- The identity key built by the f-string at line 87: stripped result, an
underscore, then the rendered timestamp. -/
def result_key (d : WheelData) : String :=
  strippedResult d ++ "_" ++ tsRender d.timestamp

/-- process_result (lines 80 to 116). Returns the successor state, the effect
trace and the Boolean return value. Order of checks follows the source:
duplicate key, empty result, mapped action (execute, mark processed, evict
over 100), otherwise the unmapped diagnostic guarded by last_result, a field
the source never assigns after init. -/
def process_result (mappings : List (String × Action)) (writeFails : Bool)
    (st : ExecutorState) (data : WheelData) :
    ExecutorState × List BridgeEffect × Bool :=
  let result := strippedResult data
  let key := result_key data
  if st.processed_results.contains key then (st, [], false)
  else if result == "" then (st, [], false)
  else
    match mappings.lookup result with
    | some action =>
      let cmd := execute_console_command writeFails action.command
      let effs := BridgeEffect.printedWheelResult result ::
        BridgeEffect.printedDescription action.description ::
        BridgeEffect.printedMappedMods data.mods :: cmd.1
      let processed := st.processed_results ++ [key]
      let processed :=
        if processed.length > 100 then lastN 100 processed else processed
      (⟨st.last_result, st.last_timestamp, processed⟩, effs, true)
    | none =>
      if some result ≠ st.last_result then
        (st, [BridgeEffect.printedNoActionMapped result,
              BridgeEffect.printedAvailableActions (mappings.map Prod.fst)],
         false)
      else (st, [], false)

/-- The queue-file writes contained in a bridge effect trace. -/
def appendedLines (effs : List BridgeEffect) : List String :=
  effs.filterMap (fun e =>
    match e with
    | .appended s => some s
    | _ => none)

/-! ## Key injector (src/controllers/pythonkeys/send_keys.py) -/

/-- UTF-8 encoding of one Unicode code point as its byte sequence. -/
def utf8EncodeChar (c : Nat) : List Nat :=
  if c < 128 then [c]
  else if c < 2048 then [192 + c / 64, 128 + c % 64]
  else if c < 65536 then [224 + c / 4096, 128 + (c / 64) % 64, 128 + c % 64]
  else [240 + c / 262144, 128 + (c / 4096) % 64, 128 + (c / 64) % 64,
        128 + c % 64]

/-- Python str.encode to utf-8: concatenated per-character byte sequences. -/
def utf8Encode : List Nat → List Nat
  | [] => []
  | c :: rest => utf8EncodeChar c ++ utf8Encode rest

/-- Octal digit test on a byte. -/
def isOctDigit (b : Nat) : Bool := 48 ≤ b && b ≤ 55

/-- Hexadecimal digit test on a byte. -/
def isHexDigit (b : Nat) : Bool :=
  (48 ≤ b && b ≤ 57) || (97 ≤ b && b ≤ 102) || (65 ≤ b && b ≤ 70)

/-- Value of a hexadecimal digit byte. -/
def hexVal (b : Nat) : Nat :=
  if b ≤ 57 then b - 48 else if b ≤ 70 then b - 55 else b - 87

/-- Python bytes.decode with the unicode-escape codec. Plain bytes decode to
the code point of the same value (latin-1); a backslash introduces the string
literal escapes: named single-character escapes, a swallowed line continuation,
one to three octal digits (maximal munch), hex escapes x (2 digits),
u (4 digits) and U (8 digits, rejected above 0x10FFFF); a truncated escape or
a lone trailing backslash is a decode error (none); an unrecognised escape
keeps the backslash and the following byte. Named \\N escapes (which need the
Unicode name table) are modelled as decode errors and are outside the modelled
input space. -/
def unicodeEscapeDecodeAux : Nat → List Nat → Option (List Nat)
  | 0, _ => none
  | _ + 1, [] => some []
  | _ + 1, [92] => none
  | f + 1, 92 :: 110 :: r => (unicodeEscapeDecodeAux f r).map (fun l => 10 :: l)
  | f + 1, 92 :: 116 :: r => (unicodeEscapeDecodeAux f r).map (fun l => 9 :: l)
  | f + 1, 92 :: 114 :: r => (unicodeEscapeDecodeAux f r).map (fun l => 13 :: l)
  | f + 1, 92 :: 97 :: r => (unicodeEscapeDecodeAux f r).map (fun l => 7 :: l)
  | f + 1, 92 :: 98 :: r => (unicodeEscapeDecodeAux f r).map (fun l => 8 :: l)
  | f + 1, 92 :: 102 :: r => (unicodeEscapeDecodeAux f r).map (fun l => 12 :: l)
  | f + 1, 92 :: 118 :: r => (unicodeEscapeDecodeAux f r).map (fun l => 11 :: l)
  | f + 1, 92 :: 39 :: r => (unicodeEscapeDecodeAux f r).map (fun l => 39 :: l)
  | f + 1, 92 :: 34 :: r => (unicodeEscapeDecodeAux f r).map (fun l => 34 :: l)
  | f + 1, 92 :: 92 :: r => (unicodeEscapeDecodeAux f r).map (fun l => 92 :: l)
  | f + 1, 92 :: 10 :: r => unicodeEscapeDecodeAux f r
  | f + 1, 92 :: 120 :: h1 :: h2 :: r =>
    if isHexDigit h1 && isHexDigit h2 then
      (unicodeEscapeDecodeAux f r).map (fun l =>
        (16 * hexVal h1 + hexVal h2) :: l)
    else none
  | _ + 1, 92 :: 120 :: _ => none
  | f + 1, 92 :: 117 :: h1 :: h2 :: h3 :: h4 :: r =>
    if isHexDigit h1 && isHexDigit h2 && isHexDigit h3 && isHexDigit h4 then
      (unicodeEscapeDecodeAux f r).map (fun l =>
        (4096 * hexVal h1 + 256 * hexVal h2 + 16 * hexVal h3 + hexVal h4) :: l)
    else none
  | _ + 1, 92 :: 117 :: _ => none
  | f + 1, 92 :: 85 :: h1 :: h2 :: h3 :: h4 :: h5 :: h6 :: h7 :: h8 :: r =>
    if isHexDigit h1 && isHexDigit h2 && isHexDigit h3 && isHexDigit h4 &&
        isHexDigit h5 && isHexDigit h6 && isHexDigit h7 && isHexDigit h8 then
      let v := 268435456 * hexVal h1 + 16777216 * hexVal h2 +
        1048576 * hexVal h3 + 65536 * hexVal h4 + 4096 * hexVal h5 +
        256 * hexVal h6 + 16 * hexVal h7 + hexVal h8
      if v ≤ 1114111 then
        (unicodeEscapeDecodeAux f r).map (fun l => v :: l)
      else none
    else none
  | _ + 1, 92 :: 85 :: _ => none
  | _ + 1, 92 :: 78 :: _ => none
  | f + 1, 92 :: c1 :: c2 :: c3 :: r =>
    if isOctDigit c1 then
      if isOctDigit c2 then
        if isOctDigit c3 then
          (unicodeEscapeDecodeAux f r).map (fun l =>
            (64 * (c1 - 48) + 8 * (c2 - 48) + (c3 - 48)) :: l)
        else
          (unicodeEscapeDecodeAux f (c3 :: r)).map (fun l =>
            (8 * (c1 - 48) + (c2 - 48)) :: l)
      else
        (unicodeEscapeDecodeAux f (c2 :: c3 :: r)).map (fun l =>
          (c1 - 48) :: l)
    else
      (unicodeEscapeDecodeAux f (c2 :: c3 :: r)).map (fun l => 92 :: c1 :: l)
  | f + 1, [92, c1, c2] =>
    if isOctDigit c1 then
      if isOctDigit c2 then some [8 * (c1 - 48) + (c2 - 48)]
      else (unicodeEscapeDecodeAux f [c2]).map (fun l => (c1 - 48) :: l)
    else (unicodeEscapeDecodeAux f [c2]).map (fun l => 92 :: c1 :: l)
  | _ + 1, [92, c1] =>
    if isOctDigit c1 then some [c1 - 48]
    else some [92, c1]
  | f + 1, b :: rest => (unicodeEscapeDecodeAux f rest).map (fun l => b :: l)

/-- Entry point for the codec. Every worker step consumes at least one byte,
so a fuel of the byte count plus one is always sufficient and the fuel-out
case is unreachable. -/
def unicodeEscapeDecode (bytes : List Nat) : Option (List Nat) :=
  unicodeEscapeDecodeAux (bytes.length + 1) bytes

/-- process_escape_sequences (lines 30 to 36): an empty payload is returned
unchanged, otherwise the payload is encoded to utf-8 bytes and decoded with
the unicode-escape codec; a codec error propagates as an exception, modelled
as none. -/
def process_escape_sequences (s : List Nat) : Option (List Nat) :=
  if s == [] then some []
  else unicodeEscapeDecode (utf8Encode s)

/-- The three stdout prints the script always performs: the interpreter path
and sys.path diagnostics (lines 3 and 4) and the import success line
(line 14). -/
inductive StdoutLine where
  | execDiag : StdoutLine
  | pathDiag : StdoutLine
  | importOk : StdoutLine
deriving DecidableEq, Repr

/-- Tags for the logging calls of the script, in source order. -/
inductive LogMsg where
  | started : LogMsg
  | keysArg : LogMsg
  | targetArg : LogMsg
  | connecting : LogMsg
  | windowFound : LogMsg
  | windowHandle : LogMsg
  | fgOkWin32 : LogMsg
  | fgErrWin32 : LogMsg
  | invalidHandle : LogMsg
  | fgOkFocus : LogMsg
  | fgErrFocus : LogMsg
  | abortNoFocus : LogMsg
  | activeTitle : LogMsg
  | sentClipboard : LogMsg
  | sentDirect : LogMsg
  | success : LogMsg
  | windowNotFound : LogMsg
  | errorSending : LogMsg
deriving DecidableEq, Repr

/-- Tags for the stderr prints of the script. -/
inductive StderrLine where
  | noFocus : StderrLine
  | windowNotFound : StderrLine
  | errorSending : StderrLine
deriving DecidableEq, Repr

/-- Observable effects of one injector invocation: stdout lines, side-log
entries, stderr lines, clipboard writes and synthesized key events (the code
points handed to pyperclip.copy and to send_keys). -/
inductive Effect where
  | stdout : StdoutLine → Effect
  | log : LogMsg → Effect
  | stderr : StderrLine → Effect
  | clipboardCopy : List Nat → Effect
  | sendKeysEvent : List Nat → Effect
deriving DecidableEq, Repr

/-- Environment of one injector invocation: whether connect finds the target
window (ElementNotFoundError otherwise), whether win32gui imported, the value
of the window handle attribute, and which of the fallible calls raise. The
model assumes the window, once connected, persists for the invocation. -/
structure InjectorEnv where
  connectFound : Bool
  hasWin32gui : Bool
  handle : Option Int
  setForegroundRaises : Bool
  setFocusRaises : Bool
  windowTextRaises : Bool
  clipboardCopyRaises : Bool
  sendKeysRaises : Bool
deriving DecidableEq, Repr

/-- The handle validity test of line 67: handle truthy, an int and nonzero. -/
def validHandle : Option Int → Bool
  | none => false
  | some h => h != 0

/-- The delivery-strategy test of line 96, in source operand order: newline in
the raw payload, carriage return in the raw payload, the unescaped text trims
differently, a space in the unescaped text, or a tab in the raw payload. -/
def pasteCondition (keys text : List Nat) : Bool :=
  keys.contains 10 || keys.contains 13 || (pyStripNat text != text) ||
  text.contains 32 || keys.contains 9

/-- The unconditional stdout diagnostics emitted before the try block. -/
def diagnosticPrelude : List Effect :=
  [.stdout .execDiag, .stdout .pathDiag, .stdout .importOk]

/-- The module-level flow of send_keys.py after argument parsing (lines 53 to
114), as a function from environment and payload to the effect trace and the
process exit code. SystemExit raised by sys.exit inside the try block is not
an Exception subclass, so it is not caught by the generic handler; falling off
the end of the script exits with code 0. -/
def runInjector (env : InjectorEnv) (keys : List Nat) : List Effect × Nat :=
  let pre := diagnosticPrelude ++
    [Effect.log .started, Effect.log .keysArg, Effect.log .targetArg,
     Effect.log .connecting]
  if !env.connectFound then
    (pre ++ [Effect.log .windowNotFound, Effect.stderr .windowNotFound], 0)
  else
    let pre := pre ++ [Effect.log .windowFound, Effect.log .windowHandle]
    let fg :=
      if env.hasWin32gui then
        if validHandle env.handle then
          if env.setForegroundRaises then ([Effect.log .fgErrWin32], true)
          else ([Effect.log .fgOkWin32], false)
        else ([Effect.log .invalidHandle], true)
      else
        if env.setFocusRaises then ([Effect.log .fgErrFocus], true)
        else ([Effect.log .fgOkFocus], false)
    let pre := pre ++ fg.1
    if fg.2 then
      (pre ++ [Effect.log .abortNoFocus, Effect.stderr .noFocus], 1)
    else if env.windowTextRaises then
      (pre ++ [Effect.log .errorSending, Effect.stderr .errorSending], 1)
    else
      let pre := pre ++ [Effect.log .activeTitle]
      match process_escape_sequences keys with
      | none => (pre ++ [Effect.log .errorSending, Effect.stderr .errorSending], 1)
      | some text =>
        if pasteCondition keys text then
          if env.clipboardCopyRaises then
            (pre ++ [Effect.log .errorSending, Effect.stderr .errorSending], 1)
          else if env.sendKeysRaises then
            (pre ++ [Effect.clipboardCopy text, Effect.log .errorSending,
                     Effect.stderr .errorSending], 1)
          else
            (pre ++ [Effect.clipboardCopy text, Effect.sendKeysEvent [94, 118],
                     Effect.log .sentClipboard, Effect.log .success], 0)
        else
          if env.sendKeysRaises then
            (pre ++ [Effect.log .errorSending, Effect.stderr .errorSending], 1)
          else
            (pre ++ [Effect.sendKeysEvent text, Effect.log .sentDirect,
                     Effect.log .success], 0)

/-- The stdout lines contained in an injector effect trace. -/
def stdoutEffects (effs : List Effect) : List StdoutLine :=
  effs.filterMap (fun e =>
    match e with
    | .stdout s => some s
    | _ => none)

/-- Input-delivering effects: clipboard writes and synthesized key events. -/
def isInputEffect : Effect → Bool
  | .clipboardCopy _ => true
  | .sendKeysEvent _ => true
  | _ => false

/-- The input-delivering effects contained in an injector effect trace. -/
def inputEffects (effs : List Effect) : List Effect :=
  effs.filter isInputEffect

/-- Whether the foreground step of lines 65 to 83 succeeds: with win32gui a
valid handle and a successful SetForegroundWindow call, otherwise a successful
set_focus call. -/
def foregroundOk (env : InjectorEnv) : Bool :=
  if env.hasWin32gui then validHandle env.handle && !env.setForegroundRaises
  else !env.setFocusRaises

/-- Modelled from the spec wording of claim C3, for refinement comparison
with pasteCondition: the delivery test read as a predicate of the raw payload
alone — a newline, a carriage return, leading or trailing whitespace that
trimming would remove, or an embedded tab or space, all checked on the
payload string itself. -/
def claimPasteCondition (keys : List Nat) : Bool :=
  keys.contains 10 || keys.contains 13 || (pyStripNat keys != keys) ||
  keys.contains 9 || keys.contains 32

/-! ## Concrete fixtures used by witnesses and counterexamples -/

/-- The wheel option of the spec scenario in section 8. -/
def fireAction : Action := ⟨"player.placeatme 0001234c", "spawn"⟩

/-- A mapping table holding only the fire option. -/
def fireMappings : List (String × Action) := [("fire", fireAction)]

/-- The state-file observation of the spec scenario in section 8. -/
def fireEvent : WheelData := ⟨some "fire", some "100", []⟩

/-- Injector environment in which every step succeeds. -/
def envAllGood : InjectorEnv := ⟨true, true, some 1, false, false, false, false, false⟩

/-- Injector environment in which connect does not find the target window. -/
def envNotFound : InjectorEnv := ⟨false, true, some 1, false, false, false, false, false⟩

/-- Injector environment in which SetForegroundWindow raises. -/
def envFgRaises : InjectorEnv := ⟨true, true, some 1, true, false, false, false, false⟩

/-- An executor state whose processed set already holds 101 distinct keys. -/
def bigProcessedState : ExecutorState :=
  ⟨none, none, (List.range 101).map (fun i => toString i ++ "_t")⟩

/-- An observation whose identity key is already in bigProcessedState. -/
def dupEvent : WheelData := ⟨some "7", some "t", []⟩

/-- A mapping table holding two results whose names allow key collisions. -/
def conflMappings : List (String × Action) :=
  [("a", ⟨"cmdA", "descA"⟩), ("a_1", ⟨"cmdA1", "descA1"⟩)]

/-- First colliding observation: result a_1 with timestamp 2. -/
def conflEvent1 : WheelData := ⟨some "a_1", some "2", []⟩

/-- Second colliding observation: result a with timestamp 1_2, a distinct
(result, timestamp) pair whose rendered identity key coincides. -/
def conflEvent2 : WheelData := ⟨some "a", some "1_2", []⟩

/-- An observation whose result has no mapped action. -/
def unknownEvent : WheelData := ⟨some "unknown_x", some "1", []⟩

/-! ## Helper lemmas -/

theorem mem_of_mem_lastN {α : Type} {n : Nat} {l : List α} {x : α}
    (h : x ∈ lastN n l) : x ∈ l :=
  List.drop_subset _ _ h

theorem self_mem_lastN {α : Type} {n : Nat} (hn : 0 < n) (l : List α) (x : α) :
    x ∈ lastN n (l ++ [x]) := by
  unfold lastN
  have hle : (l ++ [x]).length - n ≤ l.length := by
    simp only [List.length_append, List.length_cons, List.length_nil]
    omega
  rw [List.drop_append_of_le_length hle]
  simp

/-- Characterization of process_result on a fresh, nonempty, mapped
observation: it returns True, appends the command plus newline exactly when
the write does not fail, prints the write error exactly when it does, appends
the identity key to the processed list (evicting down to the last 100 when
over cap) and leaves last_result untouched. -/
theorem process_result_fresh_mapped (m : List (String × Action)) (wf : Bool)
    (st : ExecutorState) (d : WheelData) (a : Action)
    (h1 : st.processed_results.contains (result_key d) = false)
    (h2 : strippedResult d ≠ "")
    (h3 : m.lookup (strippedResult d) = some a) :
    (process_result m wf st d).2.2 = true ∧
    appendedLines (process_result m wf st d).2.1 =
      (if wf then [] else [a.command ++ "\n"]) ∧
    (BridgeEffect.printedWriteError ∈ (process_result m wf st d).2.1 ↔ wf = true) ∧
    (process_result m wf st d).1.processed_results =
      (if (st.processed_results ++ [result_key d]).length > 100 then
        lastN 100 (st.processed_results ++ [result_key d])
      else st.processed_results ++ [result_key d]) ∧
    (process_result m wf st d).1.last_result = st.last_result := by
  have h1m : result_key d ∉ st.processed_results := by simpa using h1
  cases wf <;>
    simp [process_result, execute_console_command, write_command_queue,
      appendedLines, h1m, h2, h3]

/-- On an observation whose identity key is already in the processed list,
process_result returns False, changes nothing and performs no effect. -/
theorem process_result_dup (m : List (String × Action)) (wf : Bool)
    (st : ExecutorState) (d : WheelData)
    (h : st.processed_results.contains (result_key d) = true) :
    process_result m wf st d = (st, [], false) := by
  have hm : result_key d ∈ st.processed_results := by simpa using h
  simp [process_result, hm]

/-- After processing a fresh mapped observation, its identity key is in the
processed list. -/
theorem result_key_mem_after (m : List (String × Action)) (wf : Bool)
    (st : ExecutorState) (d : WheelData) (a : Action)
    (h1 : st.processed_results.contains (result_key d) = false)
    (h2 : strippedResult d ≠ "")
    (h3 : m.lookup (strippedResult d) = some a) :
    result_key d ∈ (process_result m wf st d).1.processed_results := by
  have hc := (process_result_fresh_mapped m wf st d a h1 h2 h3).2.2.2.1
  rw [hc]
  split
  · exact self_mem_lastN (by omega) _ _
  · simp

/-- After processing a fresh mapped observation, every key in the processed
list was already there or is the identity key of the observation. -/
theorem processed_subset_after (m : List (String × Action)) (wf : Bool)
    (st : ExecutorState) (d : WheelData) (a : Action)
    (h1 : st.processed_results.contains (result_key d) = false)
    (h2 : strippedResult d ≠ "")
    (h3 : m.lookup (strippedResult d) = some a) :
    ∀ k, k ∈ (process_result m wf st d).1.processed_results →
      k ∈ st.processed_results ∨ k = result_key d := by
  intro k hk
  have hc := (process_result_fresh_mapped m wf st d a h1 h2 h3).2.2.2.1
  rw [hc] at hk
  have hk2 : k ∈ st.processed_results ++ [result_key d] := by
    rcases (by assumption : k ∈ _) with h
    revert hk
    split
    · intro hk
      exact mem_of_mem_lastN hk
    · intro hk
      exact hk
  rcases List.mem_append.mp hk2 with h | h
  · exact Or.inl h
  · simp at h
    exact Or.inr h

/-- On an observation whose stripped result is empty, process_result skips
with no state change and no effect. -/
theorem process_result_state_empty (m : List (String × Action)) (wf : Bool)
    (st : ExecutorState) (d : WheelData) (he : strippedResult d = "") :
    process_result m wf st d = (st, [], false) := by
  by_cases hc : result_key d ∈ st.processed_results <;>
    simp [process_result, he, hc]

/-- On an observation whose stripped result has no mapped action, every path
of process_result leaves the state unchanged, returns False and appends
nothing to the queue file. -/
theorem process_result_unmapped_state (m : List (String × Action)) (wf : Bool)
    (st : ExecutorState) (d : WheelData)
    (hm : m.lookup (strippedResult d) = none) :
    (process_result m wf st d).1 = st ∧
    (process_result m wf st d).2.2 = false ∧
    appendedLines (process_result m wf st d).2.1 = [] := by
  by_cases hc : result_key d ∈ st.processed_results <;>
  by_cases he : strippedResult d = "" <;>
  by_cases hl : some (strippedResult d) ≠ st.last_result <;>
    simp [process_result, appendedLines, hm, hc, he, hl]

/-! ## Claims about the event bridge -/

/-- Claim C1, corrected. For a fresh, nonempty, mapped observation the
executor appends the mapped command plus newline exactly once and returns
True; an immediately repeated call with the same observation is skipped as a
duplicate with no append; and the only key added to the processed set is the
identity key string built as stripped result, underscore, rendered timestamp,
so two observations are conflated as duplicates exactly when those key strings
coincide (which distinct pairs can achieve, refuting the claim as stated). -/
theorem claim_C1 (m : List (String × Action)) (st : ExecutorState)
    (d : WheelData) (a : Action)
    (h1 : st.processed_results.contains (result_key d) = false)
    (h2 : strippedResult d ≠ "")
    (h3 : m.lookup (strippedResult d) = some a) :
    appendedLines (process_result m false st d).2.1 = [a.command ++ "\n"] ∧
    (process_result m false st d).2.2 = true ∧
    process_result m false (process_result m false st d).1 d =
      ((process_result m false st d).1, [], false) ∧
    (∀ k, k ∈ (process_result m false st d).1.processed_results →
      k ∈ st.processed_results ∨ k = result_key d) := by
  obtain ⟨hret, happ, hwr, hproc, hlast⟩ :=
    process_result_fresh_mapped m false st d a h1 h2 h3
  refine ⟨by simpa using happ, hret, ?_,
    processed_subset_after m false st d a h1 h2 h3⟩
  apply process_result_dup
  simpa using result_key_mem_after m false st d a h1 h2 h3

/-- Witness for claim C1 at the spec scenario: the fire config and the fire
event with timestamp 100. -/
theorem claim_C1_witness :
    initState.processed_results.contains (result_key fireEvent) = false ∧
    strippedResult fireEvent ≠ "" ∧
    fireMappings.lookup (strippedResult fireEvent) = some fireAction ∧
    appendedLines (process_result fireMappings false initState fireEvent).2.1 =
      [fireAction.command ++ "\n"] ∧
    process_result fireMappings false
        (process_result fireMappings false initState fireEvent).1 fireEvent =
      ((process_result fireMappings false initState fireEvent).1, [], false) := by
  have h := claim_C1 fireMappings initState fireEvent fireAction
    (by decide) (by decide) (by decide)
  exact ⟨by decide, by decide, by decide, h.1, h.2.2.1⟩

/-- Counterexample to claim C1 as stated: conflEvent1 and conflEvent2 carry
distinct (result, timestamp) pairs and both results are mapped, yet the second
observation is skipped as a duplicate of the first with no append, because
both pairs render to the identity key string a_1_2. -/
theorem claim_C1_cex :
    conflEvent1.result ≠ conflEvent2.result ∧
    conflEvent1.timestamp ≠ conflEvent2.timestamp ∧
    conflMappings.lookup (strippedResult conflEvent2) =
      some ⟨"cmdA", "descA"⟩ ∧
    (process_result conflMappings false initState conflEvent1).2.2 = true ∧
    process_result conflMappings false
        (process_result conflMappings false initState conflEvent1).1
        conflEvent2 =
      ((process_result conflMappings false initState conflEvent1).1, [],
        false) := by
  decide

/-- Claim C2 evaluated on the code at the failing input: an unmapped result
observed on two consecutive poll cycles produces the no-action diagnostic on
both cycles (the state is unchanged between them and last_result is never
assigned after init, so the suppression guard always passes), whereas the
claim says the diagnostic is suppressed on the immediate repeat. -/
theorem claim_C2 :
    BridgeEffect.printedNoActionMapped "unknown_x" ∈
      (process_result fireMappings false initState unknownEvent).2.1 ∧
    (process_result fireMappings false initState unknownEvent).1 =
      initState ∧
    BridgeEffect.printedNoActionMapped "unknown_x" ∈
      (process_result fireMappings false
        (process_result fireMappings false initState unknownEvent).1
        unknownEvent).2.1 := by
  decide

/-- Claim C6, corrected. The 100-entry cap is preserved by process_result
from every state already within the cap: if the processed set holds at most
100 keys before the call, it holds at most 100 after, whatever the
observation; from the empty start state the size therefore never exceeds 100
over the lifetime of the bridge. -/
theorem claim_C6 (m : List (String × Action)) (wf : Bool)
    (st : ExecutorState) (d : WheelData)
    (h : st.processed_results.length ≤ 100) :
    (process_result m wf st d).1.processed_results.length ≤ 100 := by
  cases hc : st.processed_results.contains (result_key d) with
  | true =>
    rw [process_result_dup m wf st d hc]
    exact h
  | false =>
    by_cases he : strippedResult d = ""
    · rw [process_result_state_empty m wf st d he]
      exact h
    · cases hm : m.lookup (strippedResult d) with
      | none =>
        rw [(process_result_unmapped_state m wf st d hm).1]
        exact h
      | some a =>
        have hproc := (process_result_fresh_mapped m wf st d a hc he hm).2.2.2.1
        rw [hproc]
        split
        · simp only [lastN, List.length_drop]
          omega
        · rename_i hlen
          simp only [List.length_append, List.length_cons, List.length_nil,
            gt_iff_lt, not_lt] at hlen ⊢
          omega

/-- Witness for claim C6: from the empty start state, processing the fire
event keeps the processed set within the cap. -/
theorem claim_C6_witness :
    initState.processed_results.length ≤ 100 ∧
    (process_result fireMappings false initState
      fireEvent).1.processed_results.length ≤ 100 :=
  ⟨by decide, claim_C6 fireMappings false initState fireEvent (by decide)⟩

/-- Counterexample to claim C6 as stated: from a (necessarily unreachable)
state already holding 101 keys, a call that skips a duplicate observation
leaves all 101 keys in place, so the set does not hold at most 100 keys after
every call whatever its size before. -/
theorem claim_C6_cex :
    bigProcessedState.processed_results.length = 101 ∧
    (process_result [] false bigProcessedState
      dupEvent).1.processed_results.length = 101 := by
  decide

/-- Claim C8, confirmed. When the queue append fails for a fresh mapped
observation: the failure is printed, write_command_queue returns False to its
caller, nothing reaches the queue file, the identity key is still recorded so
a repeat of the event is skipped even after writes recover (at-most-once
delivery), and the successor state still processes any other fresh mapped
event normally, so the polling loop keeps handling subsequent events. -/
theorem claim_C8 (m : List (String × Action)) (st : ExecutorState)
    (d : WheelData) (a : Action)
    (h1 : st.processed_results.contains (result_key d) = false)
    (h2 : strippedResult d ≠ "")
    (h3 : m.lookup (strippedResult d) = some a) :
    BridgeEffect.printedWriteError ∈ (process_result m true st d).2.1 ∧
    (write_command_queue true [a.command]).2 = false ∧
    appendedLines (process_result m true st d).2.1 = [] ∧
    result_key d ∈ (process_result m true st d).1.processed_results ∧
    process_result m false (process_result m true st d).1 d =
      ((process_result m true st d).1, [], false) ∧
    (∀ d2 a2,
      (process_result m true st d).1.processed_results.contains
        (result_key d2) = false →
      strippedResult d2 ≠ "" → m.lookup (strippedResult d2) = some a2 →
      appendedLines
          (process_result m false (process_result m true st d).1 d2).2.1 =
        [a2.command ++ "\n"] ∧
      (process_result m false (process_result m true st d).1 d2).2.2 =
        true) := by
  obtain ⟨hret, happ, hwr, hproc, hlast⟩ :=
    process_result_fresh_mapped m true st d a h1 h2 h3
  refine ⟨hwr.mpr rfl, rfl, by simpa using happ,
    result_key_mem_after m true st d a h1 h2 h3, ?_, ?_⟩
  · apply process_result_dup
    simpa using result_key_mem_after m true st d a h1 h2 h3
  · intro d2 a2 g1 g2 g3
    obtain ⟨r1, r2, _, _, _⟩ :=
      process_result_fresh_mapped m false _ d2 a2 g1 g2 g3
    exact ⟨by simpa using r2, r1⟩

/-- Witness for claim C8: the fire event with a failing queue write. -/
theorem claim_C8_witness :
    initState.processed_results.contains (result_key fireEvent) = false ∧
    strippedResult fireEvent ≠ "" ∧
    BridgeEffect.printedWriteError ∈
      (process_result fireMappings true initState fireEvent).2.1 ∧
    result_key fireEvent ∈
      (process_result fireMappings true initState
        fireEvent).1.processed_results := by
  have h := claim_C8 fireMappings initState fireEvent fireAction
    (by decide) (by decide) (by decide)
  exact ⟨by decide, by decide, h.1, h.2.2.2.1⟩

/-- Claim C10, confirmed. A config document that is a JSON object without an
options key loads successfully, yielding the empty mapping table rather than
a load failure; with the empty table every observation is skipped, returning
False and appending nothing, so the bridge starts polling and treats every
result as unmapped. -/
theorem claim_C10 (fields : List (String × Json))
    (h : lookupField fields "options" = none) :
    load_action_mappings (Json.obj fields) = some [] ∧
    ∀ wf st d, (process_result [] wf st d).2.2 = false ∧
      appendedLines (process_result [] wf st d).2.1 = [] := by
  constructor
  · simp [load_action_mappings, h]
  · intro wf st d
    have hm : ([] : List (String × Action)).lookup (strippedResult d) =
      none := rfl
    obtain ⟨_, r2, r3⟩ := process_result_unmapped_state [] wf st d hm
    exact ⟨r2, r3⟩

/-- Witness for claim C10: the empty JSON object as config document, and the
unmapped unknown event. -/
theorem claim_C10_witness :
    lookupField [] "options" = none ∧
    load_action_mappings (Json.obj []) = some [] ∧
    (process_result [] false initState unknownEvent).2.2 = false :=
  ⟨rfl, (claim_C10 [] rfl).1,
    ((claim_C10 [] rfl).2 false initState unknownEvent).1⟩

/-! ## Claims about the key injector -/

/-- Claim C3, corrected. When the invocation reaches the delivery step, the
strategy is a pure function of the payload, but the test of line 96 mixes the
raw payload and the unescaped text: clipboard-paste (clipboard set to the
unescaped text, then the paste shortcut control-v) is chosen iff the raw
payload contains a newline, carriage return or tab, or the unescaped text
trims differently or contains a space; otherwise the unescaped text (not the
raw payload) is synthesized directly as key events. -/
theorem claim_C3 (env : InjectorEnv) (keys text : List Nat)
    (h1 : env.connectFound = true) (h2 : foregroundOk env = true)
    (h3 : env.windowTextRaises = false)
    (h4 : env.clipboardCopyRaises = false)
    (h5 : env.sendKeysRaises = false)
    (ht : process_escape_sequences keys = some text) :
    (pasteCondition keys text = true →
      Effect.clipboardCopy text ∈ (runInjector env keys).1 ∧
      Effect.sendKeysEvent [94, 118] ∈ (runInjector env keys).1 ∧
      (runInjector env keys).2 = 0) ∧
    (pasteCondition keys text = false →
      Effect.sendKeysEvent text ∈ (runInjector env keys).1 ∧
      (∀ u, Effect.clipboardCopy u ∉ (runInjector env keys).1) ∧
      (runInjector env keys).2 = 0) := by
  rcases env with ⟨cf, hw, hd, sfr, sfo, wtr, ccr, skr⟩
  refine ⟨fun hpc => ?_, fun hpc => ?_⟩ <;>
    cases hw <;> cases hv : validHandle hd <;> cases sfr <;> cases sfo <;>
      simp_all [runInjector, foregroundOk, diagnosticPrelude]

/-- Witness for claim C3: the payload Hi followed by a space reaches the
clipboard unchanged in an all-good environment. -/
theorem claim_C3_witness :
    process_escape_sequences [72, 105, 32] = some [72, 105, 32] ∧
    pasteCondition [72, 105, 32] [72, 105, 32] = true ∧
    Effect.clipboardCopy [72, 105, 32] ∈
      (runInjector envAllGood [72, 105, 32]).1 := by
  have h := claim_C3 envAllGood [72, 105, 32] [72, 105, 32] rfl (by decide)
    rfl rfl rfl (by decide)
  exact ⟨by decide, by decide, (h.1 (by decide)).1⟩

/-- Counterexample to claim C3 as stated: the payload backslash-t-a contains
no newline, carriage return, tab or space and trims to itself, so by the
claim it must be delivered by direct key synthesis; the code unescapes it to
tab-a, whose trim differs, and delivers it via clipboard-paste instead. -/
theorem claim_C3_cex :
    claimPasteCondition [92, 116, 97] = false ∧
    process_escape_sequences [92, 116, 97] = some [9, 97] ∧
    Effect.clipboardCopy [9, 97] ∈ (runInjector envAllGood [92, 116, 97]).1 ∧
    Effect.sendKeysEvent [9, 97] ∉ (runInjector envAllGood [92, 116, 97]).1 := by
  decide

set_option maxHeartbeats 1000000 in
/-- Claim C4, corrected. On every invocation the script writes exactly three
fixed startup diagnostic lines (interpreter path, module search path, import
status) to standard output, in every environment and for every payload; all
other diagnostic text goes to the side log and to the error stream. -/
theorem claim_C4 (env : InjectorEnv) (keys : List Nat) :
    stdoutEffects (runInjector env keys).1 =
      [StdoutLine.execDiag, StdoutLine.pathDiag, StdoutLine.importOk] := by
  rcases env with ⟨cf, hw, hd, sfr, sfo, wtr, ccr, skr⟩
  simp only [runInjector]
  repeat' split
  all_goals simp [stdoutEffects, diagnosticPrelude]

/-- Counterexample to claim C4 as stated: a successful invocation on the
payload a writes data to the standard output stream. -/
theorem claim_C4_cex :
    stdoutEffects (runInjector envAllGood [97]).1 ≠ [] := by
  decide

/-- Claim C5, confirmed. Whenever the window is found but foreground
acquisition fails — the foregrounding call raises or no valid window handle
is available — the invocation exits with code 1 and the effect trace contains
no clipboard write and no synthesized key event: no input is ever delivered
to a window whose foregrounding did not succeed. -/
theorem claim_C5 (env : InjectorEnv) (keys : List Nat)
    (hfound : env.connectFound = true)
    (hfail : foregroundOk env = false) :
    (runInjector env keys).2 = 1 ∧
    inputEffects (runInjector env keys).1 = [] := by
  rcases env with ⟨cf, hw, hd, sfr, sfo, wtr, ccr, skr⟩
  cases hw <;> cases hv : validHandle hd <;> cases sfr <;> cases sfo <;>
    simp_all [runInjector, foregroundOk, inputEffects, isInputEffect,
      diagnosticPrelude]

/-- Witness for claim C5: SetForegroundWindow raising on the payload a. -/
theorem claim_C5_witness :
    envFgRaises.connectFound = true ∧ foregroundOk envFgRaises = false ∧
    (runInjector envFgRaises [97]).2 = 1 ∧
    inputEffects (runInjector envFgRaises [97]).1 = [] := by
  have h := claim_C5 envFgRaises [97] (by decide) (by decide)
  exact ⟨by decide, by decide, h.1, h.2⟩

set_option maxHeartbeats 4000000 in
/-- Claim C7, confirmed. The exit code is always 0 or 1; it is 0 exactly when
the target window was not found or delivery completed (the success log); and
in the not-found case no input effect occurs and the window-not-found
condition is logged. Every other outcome, including focus failure and any
exception during delivery, exits with code 1. -/
theorem claim_C7 (env : InjectorEnv) (keys : List Nat) :
    ((runInjector env keys).2 = 0 ∨ (runInjector env keys).2 = 1) ∧
    ((runInjector env keys).2 = 0 ↔
      (env.connectFound = false ∨
        Effect.log LogMsg.success ∈ (runInjector env keys).1)) ∧
    (env.connectFound = false →
      inputEffects (runInjector env keys).1 = [] ∧
      Effect.log LogMsg.windowNotFound ∈ (runInjector env keys).1) := by
  rcases env with ⟨cf, hw, hd, sfr, sfo, wtr, ccr, skr⟩
  cases cf
  · simp [runInjector, inputEffects, isInputEffect, diagnosticPrelude]
  · simp only [runInjector]
    repeat' split
    all_goals simp_all [inputEffects, isInputEffect, diagnosticPrelude]

/-- Witness for claim C7: with the target window absent, the exit code is 0
and no input is delivered. -/
theorem claim_C7_witness :
    (runInjector envNotFound [97]).2 = 0 ∧
    inputEffects (runInjector envNotFound [97]).1 = [] :=
  ⟨(claim_C7 envNotFound [97]).2.1.mpr (Or.inl rfl),
    ((claim_C7 envNotFound [97]).2.2 rfl).1⟩

/-- Claim C9, confirmed. The unescaping round trip (utf-8 encode then
unicode-escape decode) is not the identity even without any backslash: the
payload e-acute space a contains a code point above 127 and no backslash, yet
the text placed on the clipboard is its utf-8 bytes read back as separate
characters, which differs from the original payload, so non-ASCII text is not
delivered with content fidelity. -/
theorem claim_C9 :
    ([233, 32, 97].contains 92) = false ∧
    (∃ c ∈ [233, 32, 97], 127 < c) ∧
    process_escape_sequences [233, 32, 97] = some [195, 169, 32, 97] ∧
    [195, 169, 32, 97] ≠ [233, 32, 97] ∧
    Effect.clipboardCopy [195, 169, 32, 97] ∈
      (runInjector envAllGood [233, 32, 97]).1 := by
  decide

end Overlay
